import Mathlib

/-!
Shallow embedding of the price-comparison tool (`price.py`) and proofs of the
specification's claims about it.

Modelling conventions:
* A Python float value is modelled by `PyFloat`, an exact fraction with a
  power-of-ten denominator.  Every numeric value this program parses is a short
  decimal literal, far below double precision, so the exact-decimal model
  coincides with Python's float arithmetic on all inputs of interest.
* Python `None` and fallible operations are modelled with `Option`; a raised
  exception inside a per-item `try` block is modelled with `Except String`.
* HTML elements selected by the parsers are modelled by their observable
  content: an `Option String` is the element's text (absent element = `none`),
  and an `Option (Option String)` is an optional link element together with its
  optional `href` attribute.
* Character-level operations model Python string methods on ASCII text, the
  character set the program's selectors and claims exercise.
-/

/-- Exact value of a Python float: `num / den`, with `den` a positive power of
ten as produced by decimal parsing. -/
structure PyFloat where
  num : ℤ
  den : ℕ
deriving DecidableEq, Repr

/-- The rational value of a `PyFloat`. -/
def PyFloat.toRat (f : PyFloat) : ℚ := (f.num : ℚ) / (f.den : ℚ)

/-- Comparison of two `PyFloat`s by cross multiplication. -/
def PyFloat.le (a b : PyFloat) : Bool := a.num * (b.den : ℤ) ≤ b.num * (a.den : ℤ)

/-- Digits-in-base-ten accumulation, the value of a digit string. -/
def parseDigits (l : List Char) : Nat :=
  l.foldl (fun a c => 10 * a + (c.toNat - 48)) 0

/-- Decimal-literal parse of a character sequence made of digits and dots:
accepts `d+`, `d+.d*`, `.d+` (at most one dot, at least one digit), the
grammar Python's `float` accepts on such strings; `none` models `ValueError`. -/
def decimalCore? (l : List Char) : Option PyFloat :=
  if l.all (fun c => c.isDigit || c == '.') then
    match (l.filter (fun c => c == '.')).length with
    | 0 => if l.isEmpty then none else some ⟨(parseDigits l : ℤ), 1⟩
    | 1 =>
      let ip := l.takeWhile (fun c => c ≠ '.')
      let fp := (l.dropWhile (fun c => c ≠ '.')).drop 1
      if ip.isEmpty && fp.isEmpty then none
      else some ⟨((parseDigits ip * 10 ^ fp.length + parseDigits fp : ℕ) : ℤ), 10 ^ fp.length⟩
    | _ => none
  else none

/-- Models `str.strip()`: remove leading and trailing whitespace. -/
def pyStrip (s : String) : String :=
  String.mk (((s.data.dropWhile Char.isWhitespace).reverse.dropWhile Char.isWhitespace).reverse)

/-- Models `str.lower()` on ASCII text. -/
def pyLower (s : String) : String :=
  String.mk (s.data.map Char.toLower)

/-- Models Python `float()` applied to a character sequence (already stripped):
optional sign followed by a decimal literal.  Exponents, `inf`/`nan` and digit
underscores are outside the model; no input of interest uses them. -/
def pyFloatChars? (l : List Char) : Option PyFloat :=
  match l with
  | '+' :: rest => decimalCore? rest
  | '-' :: rest => (decimalCore? rest).map (fun f => ⟨-f.num, f.den⟩)
  | _ => decimalCore? l

/-- Models Python `float(s)` on a string: surrounding whitespace is stripped,
then an optional sign and a decimal literal; `none` models `ValueError`. -/
def pyFloat? (s : String) : Option PyFloat :=
  pyFloatChars? ((pyStrip s).data)

/-- Models Python `int()` on a character sequence (already stripped): optional
sign and a nonempty run of digits; `none` models `ValueError`. -/
def pyIntChars? (l : List Char) : Option ℤ :=
  let core := fun (d : List Char) =>
    if !d.isEmpty && d.all Char.isDigit then some ((parseDigits d : ℤ)) else none
  match l with
  | '+' :: rest => core rest
  | '-' :: rest => (core rest).map (fun n => -n)
  | _ => core l

/-- Models Python `int(s)` on a string. -/
def pyInt? (s : String) : Option ℤ :=
  pyIntChars? ((pyStrip s).data)

/-- Embeds `WebScraper._extract_price`: empty text gives `None`; otherwise keep
only digits, `.` and `,`, delete every `,`, and apply `float`, with `ValueError`
caught to `None`. -/
def extract_price (price_text : String) : Option PyFloat :=
  if price_text = ("") then none
  else
    decimalCore?
      ((price_text.data.filter (fun c => c.isDigit || c == '.' || c == ',')).filter
        (fun c => c ≠ ','))

/-- Modelled from the spec: `parsePrice` strips every character that is not a
digit, `.` or `,`, removes `,`, parses the remainder as a decimal number, and
returns unknown on empty input or parse failure.  Stated alongside
`extract_price` (the embedding of the source) for comparison. -/
def parsePrice_spec (s : String) : Option PyFloat :=
  decimalCore?
    ((s.data.filter (fun c => c.isDigit || c == '.' || c == ',')).filter (fun c => c ≠ ','))

/-- Models `text.split()[0]`: first maximal run of non-whitespace characters;
`none` models the `IndexError` on all-whitespace text. -/
def firstToken? (s : String) : Option (List Char) :=
  let l := s.data.dropWhile Char.isWhitespace
  if l.isEmpty then none else some (l.takeWhile (fun c => !c.isWhitespace))

/-- Models `float(text.split()[0])` from the Amazon rating extraction; `none`
models a raised `IndexError` or `ValueError`. -/
def ratingOfText? (s : String) : Option PyFloat :=
  (firstToken? s).bind pyFloatChars?

/-- Models `int(text.replace(',', ''))` from the Amazon review-count
extraction; `none` models a raised `ValueError`. -/
def reviewsOfText? (s : String) : Option ℤ :=
  pyIntChars? ((pyStrip (String.mk (s.data.filter (fun c => c ≠ ',')))).data)

/-- One normalized product observation, embedding the `Product` dataclass.
`price` is `none` when unknown; `timestamp` models `datetime.now()` as an
abstract instant. -/
structure Product where
  name : String
  price : Option PyFloat
  website : String
  url : String
  timestamp : ℤ
  description : String
  rating : PyFloat
  num_reviews : ℤ
  availability : String
deriving DecidableEq, Repr

/-- An Amazon search-result tile as seen by `_scrape_amazon`'s selectors:
text of `h2 a span`, `span.a-price > span.a-offscreen`, `span.a-icon-alt`,
`span.a-size-base.s-underline-text`, and the `h2 a` element with its optional
`href` attribute. -/
structure AmazonItem where
  name_elem : Option String
  price_elem : Option String
  rating_elem : Option String
  reviews_elem : Option String
  url_elem : Option (Option String)
deriving DecidableEq, Repr

/-- An eBay search-result tile as seen by `_scrape_ebay`'s selectors:
text of `div.s-item__title`, `span.s-item__price`, `span.SECONDARY_INFO`, and
the `a.s-item__link` element with its optional `href` attribute. -/
structure EbayItem where
  name_elem : Option String
  price_elem : Option String
  condition_elem : Option String
  url_elem : Option (Option String)
deriving DecidableEq, Repr

/-- A fetched document, reduced to the item lists each site's selector finds. -/
structure Soup where
  amazonItems : List AmazonItem
  ebayItems : List EbayItem
deriving DecidableEq, Repr

/-- Outcome of one iteration of a scraper's item loop body when it does not
raise: either fall through to the next item or append a product. -/
inductive ItemStep where
  | skip
  | emit (p : Product)
deriving DecidableEq, Repr

/-- The fixed origin `_scrape_amazon` prepends to an item `href`. -/
def amazonOrigin : String := ("https://www.amazon.com")

/-- Embeds `float(rating_elem.text.split()[0]) if rating_elem else 0.0`; the
error value models the `IndexError`/`ValueError` a present but unparseable
rating text raises. -/
def amazonRating : Option String → Except String PyFloat
  | some rt =>
    match ratingOfText? rt with
    | some q => Except.ok q
    | none => Except.error ("ValueError: could not convert string to float")
  | none => Except.ok ⟨0, 1⟩

/-- Embeds `int(reviews_elem.text.replace(',', '')) if reviews_elem else 0`;
the error value models the `ValueError` a present but unparseable review count
raises. -/
def amazonReviews : Option String → Except String ℤ
  | some rv =>
    match reviewsOfText? rv with
    | some n => Except.ok n
    | none => Except.error ("ValueError: invalid literal for int")
  | none => Except.ok 0

/-- Embeds the body of the per-item `try` block of `WebScraper._scrape_amazon`:
skip when the name element is absent, raise on unparseable rating or review
count, resolve the url, and append only when name and url are nonempty. -/
def amazonItemBody (item : AmazonItem) (base_url : String) (now : ℤ) :
    Except String ItemStep :=
  match item.name_elem with
  | none => Except.ok ItemStep.skip
  | some ntext =>
    let name := pyStrip ntext
    let price := item.price_elem.bind extract_price
    match amazonRating item.rating_elem with
    | Except.error e => Except.error e
    | Except.ok rating =>
      match amazonReviews item.reviews_elem with
      | Except.error e => Except.error e
      | Except.ok reviews =>
        let url :=
          match item.url_elem with
          | some (some href) => amazonOrigin ++ href
          | _ => base_url
        if name ≠ ("") ∧ url ≠ ("") then
          Except.ok (ItemStep.emit ⟨name, price, ("Amazon"), url, now, (""), rating, reviews, ("")⟩)
        else Except.ok ItemStep.skip

/-- One Amazon loop iteration as the surrounding `for` sees it: an exception is
caught (`continue`), a skip adds nothing, an emit appends its product. -/
def processAmazonItem (item : AmazonItem) (base_url : String) (now : ℤ) :
    Option Product :=
  match amazonItemBody item base_url now with
  | Except.error _ => none
  | Except.ok ItemStep.skip => none
  | Except.ok (ItemStep.emit p) => some p

/-- Embeds `WebScraper._scrape_amazon`. -/
def scrape_amazon (soup : Option Soup) (base_url : String) (now : ℤ) : List Product :=
  match soup with
  | none => []
  | some s => s.amazonItems.filterMap (fun it => processAmazonItem it base_url now)

/-- Embeds the body of the per-item `try` block of `WebScraper._scrape_ebay`:
skip when the title element is absent or reads "shop on ebay", resolve the url
verbatim from the `href`, and append only when name and url are nonempty. -/
def ebayItemBody (item : EbayItem) (base_url : String) (now : ℤ) :
    Except String ItemStep :=
  match item.name_elem with
  | none => Except.ok ItemStep.skip
  | some ntext =>
    let name := pyStrip ntext
    if pyLower name = ("shop on ebay") then Except.ok ItemStep.skip
    else
      let price := item.price_elem.bind extract_price
      let availability := (item.condition_elem.map pyStrip).getD ("")
      let url :=
        match item.url_elem with
        | some (some href) => href
        | _ => base_url
      if name ≠ ("") ∧ url ≠ ("") then
        Except.ok (ItemStep.emit ⟨name, price, ("eBay"), url, now, (""), ⟨0, 1⟩, 0, availability⟩)
      else Except.ok ItemStep.skip

/-- One eBay loop iteration as the surrounding `for` sees it. -/
def processEbayItem (item : EbayItem) (base_url : String) (now : ℤ) :
    Option Product :=
  match ebayItemBody item base_url now with
  | Except.error _ => none
  | Except.ok ItemStep.skip => none
  | Except.ok (ItemStep.emit p) => some p

/-- Embeds `WebScraper._scrape_ebay`. -/
def scrape_ebay (soup : Option Soup) (base_url : String) (now : ℤ) : List Product :=
  match soup with
  | none => []
  | some s => s.ebayItems.filterMap (fun it => processEbayItem it base_url now)

/-- Embeds `WebScraper.scrape_site`.  The fetch (`get_soup`) is passed as a
function; it returns `none` for any network error, timeout, or bad HTTP
status, which the method turns into an empty result. -/
def scrape_site (fetch : String → Option Soup) (url : String) (site_name : String)
    (now : ℤ) : List Product :=
  match fetch url with
  | none => []
  | some soup =>
    if site_name = ("amazon") then scrape_amazon (some soup) url now
    else if site_name = ("ebay") then scrape_ebay (some soup) url now
    else []

/-- One row of the `products` table (the autoincrement `id` is the list
position).  `price` is a nullable `REAL` column. -/
structure DBRow where
  name : String
  price : Option PyFloat
  website : String
  url : String
  timestamp : ℤ
  description : String
  rating : PyFloat
  num_reviews : ℤ
  availability : String
deriving DecidableEq, Repr

/-- The row `save_product` inserts for a product. -/
def toRow (p : Product) : DBRow :=
  ⟨p.name, p.price, p.website, p.url, p.timestamp, p.description, p.rating,
   p.num_reviews, p.availability⟩

/-- The `UNIQUE(name, website, timestamp)` constraint: does row `r` collide
with product `p`'s key? -/
def sameKey (p : Product) (r : DBRow) : Bool :=
  r.name == p.name && r.website == p.website && r.timestamp == p.timestamp

/-- Embeds `DatabaseManager.save_product`: return early when the name is empty
or the price is `None`; otherwise `INSERT OR REPLACE`, which deletes any row
conflicting on `UNIQUE(name, website, timestamp)` and appends the new row. -/
def save_product (db : List DBRow) (p : Product) : List DBRow :=
  if p.name = ("") ∨ p.price = none then db
  else db.filter (fun r => !sameKey p r) ++ [toRow p]

/-- Models SQLite's default `LIKE` on ASCII text (no `ESCAPE` clause):
`%` matches any run of characters, `_` matches any single character, and
letters compare case-insensitively by ASCII folding. -/
def sqliteLike : List Char → List Char → Bool
  | [], s => s.isEmpty
  | '%' :: ps, s => (s.tails).any (fun t => sqliteLike ps t)
  | '_' :: ps, _ :: cs => sqliteLike ps cs
  | '_' :: _, [] => false
  | p :: ps, c :: cs => (p.toLower == c.toLower) && sqliteLike ps cs
  | _ :: _, [] => false

/-- The `WHERE` clause of `get_price_history`:
`name LIKE '%{product_name}%' AND price IS NOT NULL`. -/
def historyPred (product_name : String) (r : DBRow) : Bool :=
  sqliteLike ('%' :: (product_name.data ++ ['%'])) r.name.data && r.price.isSome

/-- `ORDER BY timestamp DESC`. -/
def tsDesc (a b : DBRow) : Prop := b.timestamp ≤ a.timestamp

instance : DecidableRel tsDesc :=
  fun a b => inferInstanceAs (Decidable (b.timestamp ≤ a.timestamp))

instance : IsTotal DBRow tsDesc := ⟨fun a b => le_total b.timestamp a.timestamp⟩

instance : IsTrans DBRow tsDesc := ⟨fun _ _ _ hab hbc => le_trans hbc hab⟩

/-- Embeds `DatabaseManager.get_price_history`: filter by the `WHERE` clause,
order newest first, and project `SELECT website, price, timestamp, url`.
SQLite specifies no order among equal timestamps; the model picks a stable
sort, which realizes one admissible order. -/
def get_price_history (db : List DBRow) (product_name : String) :
    List (String × Option PyFloat × ℤ × String) :=
  (List.insertionSort tsDesc (db.filter (historyPred product_name))).map
    (fun r => (r.website, r.price, r.timestamp, r.url))

/-- Uppercase hexadecimal digit of a value below 16. -/
def hexUpper (n : ℕ) : Char :=
  if n < 10 then Char.ofNat (48 + n) else Char.ofNat (55 + n)

/-- Models `urllib.parse.quote_plus` on ASCII input (the model's character
set): alphanumerics and `_ . - ~` pass through, a space becomes `+`, every
other character is percent-encoded from its code point, which equals its UTF-8
byte for ASCII. -/
def quote_plus (s : String) : String :=
  String.mk (s.data.foldr (fun c acc =>
    if c = ' ' then '+' :: acc
    else if c.isAlphanum || c = '_' || c = '.' || c = '-' || c = '~' then c :: acc
    else '%' :: hexUpper (c.toNat / 16) :: hexUpper (c.toNat % 16) :: acc) [])

/-- The placeholder characters of `str.format`. -/
def lbrace : Char := Char.ofNat 123

/-- The closing placeholder character of `str.format`. -/
def rbrace : Char := Char.ofNat 125

/-- Models `template.format(arg)` for a template holding one positional
placeholder: the first placeholder pair is replaced by the argument. -/
def fmtAux (arg : List Char) : List Char → List Char
  | [] => []
  | c :: cs =>
    if c = lbrace then
      match cs with
      | c2 :: rest => if c2 = rbrace then arg ++ rest else c :: fmtAux arg cs
      | [] => [c]
    else c :: fmtAux arg cs

/-- Models `str.format` with a single positional argument. -/
def formatOne (tmpl arg : String) : String :=
  String.mk (fmtAux arg.data tmpl.data)

/-- The Amazon search-URL template of `PriceComparisonTool.site_urls`. -/
def amazon_template : String := ("https://www.amazon.com/s?k=\x7b\x7d")

/-- The eBay search-URL template of `PriceComparisonTool.site_urls`. -/
def ebay_template : String := ("https://www.ebay.com/sch/i.html?_nkw=\x7b\x7d")

/-- Embeds `PriceComparisonTool.site_urls`, a dict iterated in insertion
order: Amazon first, then eBay. -/
def site_urls : List (String × String) :=
  [(("amazon"), amazon_template), (("ebay"), ebay_template)]

/-- Embeds `PriceComparisonTool.search_products`: for each configured site in
order, format the query into the site's template and extend the accumulator
with that site's scrape. A failed fetch already yields `[]` from
`scrape_site`; the per-site `except` catches nothing else in the model because
every remaining step is total. -/
def search_products (fetch : String → Option Soup) (query : String) (now : ℤ) :
    List Product :=
  site_urls.foldl
    (fun acc su => acc ++ scrape_site fetch (formatOne su.2 (quote_plus query)) su.1 now) []

/-- The sort key of `display_results`: `lambda x: x.price or float('inf')`.
Both `None` and a price equal to `0.0` are falsy in Python, so both map to
infinity, modelled as `none`. -/
def displayKey (p : Product) : Option PyFloat :=
  match p.price with
  | none => none
  | some f => if f.num = 0 then none else some f

/-- Order on display keys with `none` as plus infinity. -/
def displayLEb (a b : Product) : Bool :=
  match displayKey a, displayKey b with
  | none, none => true
  | none, some _ => false
  | some _, none => true
  | some x, some y => PyFloat.le x y

/-- `displayLEb` as a relation, the order `display_results` sorts by. -/
def displayLE (a b : Product) : Prop := displayLEb a b = true

instance : DecidableRel displayLE :=
  fun a b => inferInstanceAs (Decidable (displayLEb a b = true))

/-- Embeds the filter-and-sort step of `PriceComparisonTool.display_results`:
keep products whose price is not `None`, then sort by
`x.price or float('inf')` ascending (Python's `sorted` is stable; so is the
model's insertion sort). -/
def display_sorted (products : List Product) : List Product :=
  List.insertionSort displayLE (products.filter (fun p => p.price.isSome))

/-- A Python value that may be assigned to `Product.price` at construction. -/
inductive PyValue where
  | pnone
  | pfloat (f : PyFloat)
  | pint (n : ℤ)
  | pstr (s : String)
deriving DecidableEq, Repr

/-- Embeds `Product.__post_init__`: a non-`None` price is coerced with
`float(...)`; on `ValueError`/`TypeError` it is silently replaced by `None`. -/
def post_init_price : PyValue → Option PyFloat
  | PyValue.pnone => none
  | PyValue.pfloat f => some f
  | PyValue.pint n => some ⟨n, 1⟩
  | PyValue.pstr s => pyFloat? s

/-- C2: for every input string, `extract_price` agrees with the spec's
`parsePrice` (strip every character that is not a digit, `.` or `,`; remove
`,`; parse the remainder as a decimal; unknown on empty input or parse
failure); in particular `"$1,234.56"` yields `1234.56`, while `""`, `"N/A"`
and the multi-dot string `"1.2.3"` yield unknown rather than throwing. -/
theorem c2_extract_price_parsePrice :
    (∀ s, extract_price s = parsePrice_spec s) ∧
      (extract_price ("$1,234.56")).map PyFloat.toRat = some ((123456 : ℚ) / 100) ∧
      extract_price ("") = none ∧
      extract_price ("N/A") = none ∧
      extract_price ("1.2.3") = none := by
  refine ⟨?_, ?_, by decide, by decide, by decide⟩
  · intro s
    by_cases h : s = ("")
    · subst h; rfl
    · simp [extract_price, parsePrice_spec, h]
  · have h : extract_price ("$1,234.56") = some ⟨123456, 100⟩ := by decide
    rw [h]
    norm_num [PyFloat.toRat]

/-- C10: after `__post_init__` the price is always a genuine number or `None`;
a supplied value that cannot be coerced with `float(...)` is silently replaced
by `None`, a numeric value passes through, and `None` stays `None`. -/
theorem c10_post_init_price_invariant :
    (∀ v : PyValue, post_init_price v = none ∨ ∃ f, post_init_price v = some f) ∧
      post_init_price (PyValue.pstr ("N/A")) = none ∧
      post_init_price (PyValue.pstr ("19.99")) = some ⟨1999, 100⟩ ∧
      post_init_price (PyValue.pfloat ⟨5, 1⟩) = some ⟨5, 1⟩ ∧
      post_init_price PyValue.pnone = none := by
  refine ⟨?_, by decide, by decide, by decide, by decide⟩
  intro v
  cases h : post_init_price v with
  | none => exact Or.inl rfl
  | some f => exact Or.inr ⟨f, rfl⟩

/-- C9: `scrape_site` returns the empty list for any site name other than
`"amazon"` and `"ebay"`, and returns the empty list whenever the fetch yields
no document; it never raises. -/
theorem c9_scrape_site_total :
    (∀ (fetch : String → Option Soup) (url site_name : String) (now : ℤ),
        site_name ≠ ("amazon") → site_name ≠ ("ebay") →
        scrape_site fetch url site_name now = []) ∧
      (∀ (fetch : String → Option Soup) (url site_name : String) (now : ℤ),
        fetch url = none → scrape_site fetch url site_name now = []) := by
  constructor
  · intro fetch url site_name now h1 h2
    unfold scrape_site
    cases fetch url with
    | none => rfl
    | some s => simp [h1, h2]
  · intro fetch url site_name now h
    unfold scrape_site
    rw [h]

theorem c9_witness :
    scrape_site (fun _ => some ⟨[], []⟩) ("u") ("walmart") 0 = [] ∧
      scrape_site (fun _ => none) ("u") ("amazon") 0 = [] :=
  ⟨c9_scrape_site_total.1 (fun _ => some ⟨[], []⟩) ("u") ("walmart") 0 (by decide) (by decide),
   c9_scrape_site_total.2 (fun _ => none) ("u") ("amazon") 0 rfl⟩

/-- C1: per-item isolation of the site parsers.  A document with zero matching
item elements yields the empty list; one well-formed item next to one item
whose name element is absent yields exactly the well-formed item's record, for
both sites; and an item whose processing raises is skipped alone, splitting
the batch around it. -/
theorem c1_per_item_isolation :
    (∀ (es : List EbayItem) (as' : List AmazonItem) (base : String) (now : ℤ),
        scrape_amazon (some ⟨[], es⟩) base now = [] ∧
          scrape_ebay (some ⟨as', []⟩) base now = []) ∧
      (∀ (it₁ it₂ : AmazonItem) (es : List EbayItem) (base : String) (now : ℤ) (r : Product),
        processAmazonItem it₁ base now = some r → it₂.name_elem = none →
        scrape_amazon (some ⟨[it₁, it₂], es⟩) base now = [r]) ∧
      (∀ (it₁ it₂ : EbayItem) (as' : List AmazonItem) (base : String) (now : ℤ) (r : Product),
        processEbayItem it₁ base now = some r → it₂.name_elem = none →
        scrape_ebay (some ⟨as', [it₁, it₂]⟩) base now = [r]) ∧
      (∀ (l₁ l₂ : List AmazonItem) (bad : AmazonItem) (es : List EbayItem)
          (base : String) (now : ℤ) (msg : String),
        amazonItemBody bad base now = Except.error msg →
        scrape_amazon (some ⟨l₁ ++ bad :: l₂, es⟩) base now =
          scrape_amazon (some ⟨l₁, es⟩) base now ++ scrape_amazon (some ⟨l₂, es⟩) base now) := by
  refine ⟨?_, ?_, ?_, ?_⟩
  · intro es as' base now
    exact ⟨rfl, rfl⟩
  · intro it₁ it₂ es base now r h1 h2
    have h2' : processAmazonItem it₂ base now = none := by
      simp [processAmazonItem, amazonItemBody, h2]
    simp [scrape_amazon, List.filterMap_cons, h1, h2']
  · intro it₁ it₂ as' base now r h1 h2
    have h2' : processEbayItem it₂ base now = none := by
      simp [processEbayItem, ebayItemBody, h2]
    simp [scrape_ebay, List.filterMap_cons, h1, h2']
  · intro l₁ l₂ bad es base now msg h
    have hb : processAmazonItem bad base now = none := by
      simp [processAmazonItem, h]
    simp [scrape_amazon, List.filterMap_append, List.filterMap_cons, hb]

/-- A well-formed Amazon item for the isolation property's instantiation. -/
def c1good : AmazonItem :=
  ⟨some ("Good Item"), some ("$5.00"), none, none, some (some ("/dp/1"))⟩

/-- An Amazon item whose name element is absent. -/
def c1noname : AmazonItem := ⟨none, some ("$3.00"), none, none, none⟩

/-- The record `c1good` parses to. -/
def c1rec : Product :=
  ⟨("Good Item"), some ⟨500, 100⟩, ("Amazon"), ("https://www.amazon.com/dp/1"), 0, (""),
   ⟨0, 1⟩, 0, ("")⟩

theorem c1_witness :
    processAmazonItem c1good ("B") 0 = some c1rec ∧
      scrape_amazon (some ⟨[c1good, c1noname], []⟩) ("B") 0 = [c1rec] :=
  ⟨by decide, c1_per_item_isolation.2.1 c1good c1noname [] ("B") 0 c1rec (by decide) rfl⟩

/-- C3: `save_product` is a no-op when the name is empty or the price is
`None`; otherwise it upserts by `(name, website, timestamp)`: after a save the
store holds exactly one row for that key, carrying the saved values, and
saving twice with the same key is the same as saving the second record once
(last-write-wins). -/
theorem c3_save_product_upsert :
    (∀ (db : List DBRow) (p : Product),
        p.name = ("") ∨ p.price = none → save_product db p = db) ∧
      (∀ (db : List DBRow) (p : Product), p.name ≠ ("") → p.price ≠ none →
        (save_product db p).filter (fun r => sameKey p r) = [toRow p]) ∧
      (∀ (db : List DBRow) (p q : Product),
        q.name = p.name → q.website = p.website → q.timestamp = p.timestamp →
        p.name ≠ ("") → p.price ≠ none → q.price ≠ none →
        save_product (save_product db p) q = save_product db q) := by
  refine ⟨?_, ?_, ?_⟩
  · intro db p h
    unfold save_product
    rw [if_pos h]
  · intro db p h1 h2
    unfold save_product
    rw [if_neg (by simp [h1, h2])]
    rw [List.filter_append]
    have hself : sameKey p (toRow p) = true := by simp [sameKey, toRow]
    have hdrop :
        (db.filter (fun r => !sameKey p r)).filter (fun r => sameKey p r) = [] := by
      rw [List.filter_filter]
      simp
    rw [hdrop]
    simp [hself]
  · intro db p q hqn hqw hqt hpn hpp hqp
    have hk : ∀ r, sameKey q r = sameKey p r := by
      intro r
      simp [sameKey, hqn, hqw, hqt]
    unfold save_product
    have hqn' : q.name ≠ ("") := fun h => hpn (hqn.symm.trans h)
    rw [if_neg (by exact fun h => h.elim hqn' hqp), if_neg (by exact fun h => h.elim hpn hpp),
      if_neg (by exact fun h => h.elim hqn' hqp)]
    rw [List.filter_append, List.filter_filter]
    have h1 : (db.filter fun r => !sameKey q r && !sameKey p r) = db.filter fun r => !sameKey q r := by
      apply List.filter_congr
      intro r _
      rw [hk r, Bool.and_self]
    have h2 : [toRow p].filter (fun r => !sameKey q r) = [] := by
      simp [sameKey, toRow, hqn, hqw, hqt]
    rw [h1, h2, List.append_nil]

/-- A concrete valid product for the upsert property's instantiation. -/
def c3p : Product :=
  ⟨("X Phone"), some ⟨500, 100⟩, ("Amazon"), ("u1"), 3, (""), ⟨0, 1⟩, 0, ("")⟩

/-- A later observation of the same `(name, website, timestamp)` key. -/
def c3q : Product :=
  ⟨("X Phone"), some ⟨700, 100⟩, ("Amazon"), ("u2"), 3, (""), ⟨45, 10⟩, 9, ("")⟩

/-- A product with an empty name, which `save_product` must ignore. -/
def c3empty : Product := ⟨(""), some ⟨1, 1⟩, ("eBay"), ("u"), 0, (""), ⟨0, 1⟩, 0, ("")⟩

theorem c3_witness :
    save_product [] c3empty = [] ∧
      (save_product [] c3p).filter (fun r => sameKey c3p r) = [toRow c3p] ∧
      save_product (save_product [] c3p) c3q = save_product [] c3q :=
  ⟨c3_save_product_upsert.1 [] c3empty (Or.inl rfl),
   c3_save_product_upsert.2.1 [] c3p (by decide) (by decide),
   c3_save_product_upsert.2.2 [] c3p c3q rfl rfl rfl (by decide) (by decide) (by decide)⟩

/-- A stored row whose name differs from the query only in letter case. -/
def c4row : DBRow :=
  ⟨("Phone Case"), some ⟨1, 1⟩, ("Amazon"), ("u"), 3, (""), ⟨0, 1⟩, 0, ("")⟩

/-- C4 counterexample: with the single stored row named `"Phone Case"`, the
query `"phone"` returns that row even though `"phone"` is not a
case-sensitive substring of `"Phone Case"` — SQLite's default `LIKE` compares
ASCII letters case-insensitively, so the claim's "case-sensitive substring"
is false on the code. -/
theorem c4_case_sensitivity_counterexample :
    get_price_history [c4row] ("phone") = [(("Amazon"), some ⟨1, 1⟩, 3, ("u"))] ∧
      ¬ ("phone").data <:+: ("Phone Case").data := by
  exact ⟨by decide, by decide⟩

/-- C4 amended: `get_price_history` returns exactly the stored rows whose name
matches the pattern `%query%` under SQLite's default `LIKE` — substring
containment that is case-insensitive for ASCII letters, with `%`/`_` in the
query acting as wildcards — and whose price is known, ordered newest first by
timestamp. -/
theorem c4_history_filter_order :
    ∀ (db : List DBRow) (product_name : String),
      (get_price_history db product_name).Perm
          ((db.filter (historyPred product_name)).map
            (fun r => (r.website, r.price, r.timestamp, r.url))) ∧
        (get_price_history db product_name).Pairwise
          (fun a b => b.2.2.1 ≤ a.2.2.1) := by
  intro db pn
  constructor
  · exact (List.perm_insertionSort tsDesc (db.filter (historyPred pn))).map _
  · have hs : (List.insertionSort tsDesc (db.filter (historyPred pn))).Pairwise tsDesc :=
      List.sorted_insertionSort tsDesc (db.filter (historyPred pn))
    exact hs.map _ (fun a b hab => hab)

/-- C5: `search_products` queries the configured sites in the fixed dict
order — Amazon then eBay — so the aggregate is the Amazon sublist followed by
the eBay sublist (each sublist in document order by the `filterMap` shape of
the scrapers); and when the Amazon fetch fails (e.g. a timeout, which
`get_soup` turns into `none`), the result is exactly the eBay records. -/
theorem c5_search_order_isolation :
    ∀ (fetch : String → Option Soup) (query : String) (now : ℤ),
      search_products fetch query now =
          scrape_site fetch (formatOne amazon_template (quote_plus query)) ("amazon") now ++
            scrape_site fetch (formatOne ebay_template (quote_plus query)) ("ebay") now ∧
        (fetch (formatOne amazon_template (quote_plus query)) = none →
          search_products fetch query now =
            scrape_site fetch (formatOne ebay_template (quote_plus query)) ("ebay") now) := by
  intro fetch query now
  constructor
  · rfl
  · intro h
    show ([] ++ scrape_site fetch (formatOne amazon_template (quote_plus query)) ("amazon") now)
        ++ scrape_site fetch (formatOne ebay_template (quote_plus query)) ("ebay") now = _
    rw [List.nil_append]
    have hz : scrape_site fetch (formatOne amazon_template (quote_plus query)) ("amazon") now
        = [] := by
      unfold scrape_site
      rw [h]
    rw [hz, List.nil_append]

/-- The eBay document served by the stubbed fetch below. -/
def c5soup : Soup :=
  ⟨[], [⟨some ("Laptop Bag"), some ("$12.00"), none,
         some (some ("https://www.ebay.com/itm/9"))⟩]⟩

/-- A stubbed fetch: the eBay search URL resolves, every other URL (in
particular Amazon's) times out to `none`. -/
def c5fetch : String → Option Soup :=
  fun u => if u = formatOne ebay_template (quote_plus ("laptop")) then some c5soup else none

theorem c5_witness :
    search_products c5fetch ("laptop") 0 =
      [⟨("Laptop Bag"), some ⟨1200, 100⟩, ("eBay"), ("https://www.ebay.com/itm/9"), 0, (""),
        ⟨0, 1⟩, 0, ("")⟩] := by
  have h := (c5_search_order_isolation c5fetch ("laptop") 0).2 (by decide)
  rw [h]
  decide

/-- An Amazon item with a present but unparseable rating text. -/
def c6item : AmazonItem :=
  ⟨some ("Widget"), some ("$9.99"), some ("not a rating"), none, none⟩

/-- C6 counterexample: `c6item` has a rating element whose text cannot be
parsed as a number, and the Amazon parser emits NO record for it — the
`float(...)` call raises and the per-item handler skips the whole item, so an
unparseable rating does not merely default to `0.0` with the item kept. -/
theorem c6_unparseable_rating_counterexample :
    c6item.rating_elem = some ("not a rating") ∧
      ratingOfText? ("not a rating") = none ∧
      scrape_amazon (some ⟨[c6item], []⟩) ("https://www.amazon.com/s?k=widget") 0 = [] := by
  exact ⟨rfl, by decide, by decide⟩

/-- C6 amended: a present but unparseable rating or review-count text makes
the per-item handler skip the whole item (the raised conversion error is
caught as a skip, not defaulted); the defaults `0.0`/`0` apply exactly when
the element is absent; and a price-parse failure alone never suppresses an
item — every emitted record's price is just the parse of its price element,
`None` included. -/
theorem c6_field_coercion_amended :
    (∀ (it : AmazonItem) (base : String) (now : ℤ) (rt : String),
        it.rating_elem = some rt → ratingOfText? rt = none →
        processAmazonItem it base now = none) ∧
      (∀ (it : AmazonItem) (base : String) (now : ℤ) (rv : String),
        it.reviews_elem = some rv → reviewsOfText? rv = none →
        processAmazonItem it base now = none) ∧
      (∀ (it : AmazonItem) (base : String) (now : ℤ) (p : Product),
        processAmazonItem it base now = some p →
        p.price = it.price_elem.bind extract_price) ∧
      (∀ (it : AmazonItem) (base : String) (now : ℤ) (p : Product),
        it.rating_elem = none → it.reviews_elem = none →
        processAmazonItem it base now = some p → p.rating = ⟨0, 1⟩ ∧ p.num_reviews = 0) := by
  refine ⟨?_, ?_, ?_, ?_⟩
  · intro it base now rt h1 h2
    simp [processAmazonItem, amazonItemBody, amazonRating, h1, h2]
    cases it.name_elem <;> simp
  · intro it base now rv h1 h2
    cases hn : it.name_elem with
    | none => simp [processAmazonItem, amazonItemBody, hn]
    | some nt =>
      cases hr : amazonRating it.rating_elem with
      | error e => simp [processAmazonItem, amazonItemBody, hn, hr]
      | ok rating =>
        simp [processAmazonItem, amazonItemBody, amazonReviews, hn, hr, h1, h2]
  · intro it base now p h
    unfold processAmazonItem amazonItemBody at h
    cases hn : it.name_elem with
    | none => rw [hn] at h; simp at h
    | some nt =>
      rw [hn] at h
      cases hr : amazonRating it.rating_elem with
      | error e => rw [hr] at h; simp at h
      | ok rating =>
        rw [hr] at h
        cases hv : amazonReviews it.reviews_elem with
        | error e => rw [hv] at h; simp at h
        | ok reviews =>
          rw [hv] at h
          split at h
          · exact Option.noConfusion h
          · exact Option.noConfusion h
          rename_i q heq
          obtain rfl := Option.some.inj h
          dsimp only at heq
          split at heq
          · obtain rfl := ItemStep.emit.inj (Except.ok.inj heq)
            rfl
          · exact absurd heq (by simp)
  · intro it base now p h1 h2 h
    unfold processAmazonItem amazonItemBody at h
    cases hn : it.name_elem with
    | none => rw [hn] at h; simp at h
    | some nt =>
      rw [hn, h1, h2] at h
      have hr : amazonRating none = Except.ok ⟨0, 1⟩ := rfl
      have hv : amazonReviews none = Except.ok 0 := rfl
      rw [hr, hv] at h
      split at h
      · exact Option.noConfusion h
      · exact Option.noConfusion h
      rename_i q heq
      obtain rfl := Option.some.inj h
      dsimp only at heq
      split at heq
      · obtain rfl := ItemStep.emit.inj (Except.ok.inj heq)
        exact ⟨rfl, rfl⟩
      · exact absurd heq (by simp)

theorem c6_witness :
    processAmazonItem ⟨some ("A"), none, some ("??"), none, none⟩ ("B") 0 = none ∧
      (⟨("A"), none, ("Amazon"), ("B"), 0, (""), ⟨0, 1⟩, 0, ("")⟩ : Product).price =
        Option.bind (some ("N/A")) extract_price :=
  ⟨c6_field_coercion_amended.1 ⟨some ("A"), none, some ("??"), none, none⟩ ("B") 0
      ("??") rfl (by decide),
   c6_field_coercion_amended.2.2.1 ⟨some ("A"), some ("N/A"), none, none, none⟩ ("B") 0
      ⟨("A"), none, ("Amazon"), ("B"), 0, (""), ⟨0, 1⟩, 0, ("")⟩ (by decide)⟩

/-- An eBay item whose link carries a relative `href`. -/
def c8item : EbayItem := ⟨some ("Gadget"), none, none, some (some ("/itm/123"))⟩

/-- C8 counterexample: for an eBay item with the relative href `"/itm/123"`,
the emitted record's url is the href verbatim — not the path resolved against
the site's origin, and not the search-page fallback — so "relative paths
resolved against the site's origin" is false on the code for eBay. -/
theorem c8_relative_url_counterexample :
    processEbayItem c8item ("https://www.ebay.com/sch/i.html?_nkw=gadget") 0 =
        some ⟨("Gadget"), none, ("eBay"), ("/itm/123"), 0, (""), ⟨0, 1⟩, 0, ("")⟩ ∧
      ("/itm/123") ≠ ("https://www.ebay.com") ++ ("/itm/123") ∧
      ("/itm/123") ≠ ("https://www.ebay.com/sch/i.html?_nkw=gadget") := by
  exact ⟨by decide, by decide, by decide⟩

/-- C8 amended: every emitted record's url is determined by the link element
alone — for Amazon the fixed origin string concatenated with the raw `href`
(relative or absolute alike), for eBay the raw `href` verbatim (relative
paths left unresolved) — and both fall back to the search-page URL exactly
when no link element with an `href` attribute is found. -/
theorem c8_url_resolution :
    (∀ (it : AmazonItem) (base : String) (now : ℤ) (p : Product),
        processAmazonItem it base now = some p →
        p.url = (match it.url_elem with
                 | some (some href) => amazonOrigin ++ href
                 | _ => base)) ∧
      (∀ (it : EbayItem) (base : String) (now : ℤ) (p : Product),
        processEbayItem it base now = some p →
        p.url = (match it.url_elem with
                 | some (some href) => href
                 | _ => base)) := by
  constructor
  · intro it base now p h
    unfold processAmazonItem amazonItemBody at h
    cases hn : it.name_elem with
    | none => rw [hn] at h; simp at h
    | some nt =>
      rw [hn] at h
      cases hr : amazonRating it.rating_elem with
      | error e => rw [hr] at h; simp at h
      | ok rating =>
        rw [hr] at h
        cases hv : amazonReviews it.reviews_elem with
        | error e => rw [hv] at h; simp at h
        | ok reviews =>
          rw [hv] at h
          split at h
          · exact Option.noConfusion h
          · exact Option.noConfusion h
          rename_i q heq
          obtain rfl := Option.some.inj h
          dsimp only at heq
          split at heq
          · obtain rfl := ItemStep.emit.inj (Except.ok.inj heq)
            rfl
          · exact absurd heq (by simp)
  · intro it base now p h
    unfold processEbayItem ebayItemBody at h
    cases hn : it.name_elem with
    | none => rw [hn] at h; simp at h
    | some nt =>
      rw [hn] at h
      dsimp only at h
      by_cases h1 : pyLower (pyStrip nt) = ("shop on ebay")
      · rw [if_pos h1] at h
        exact Option.noConfusion h
      · rw [if_neg h1] at h
        split at h
        · exact Option.noConfusion h
        · exact Option.noConfusion h
        rename_i q heq
        obtain rfl := Option.some.inj h
        split at heq
        · obtain rfl := ItemStep.emit.inj (Except.ok.inj heq)
          rfl
        · exact absurd heq (by simp)

theorem c8_witness :
    (⟨("A"), none, ("Amazon"), ("https://www.amazon.com/dp/9"), 0, (""), ⟨0, 1⟩, 0, ("")⟩ :
        Product).url =
      (match (some (some ("/dp/9")) : Option (Option String)) with
       | some (some href) => amazonOrigin ++ href
       | _ => ("B")) :=
  c8_url_resolution.1 ⟨some ("A"), none, none, none, some (some ("/dp/9"))⟩ ("B") 0
    ⟨("A"), none, ("Amazon"), ("https://www.amazon.com/dp/9"), 0, (""), ⟨0, 1⟩, 0, ("")⟩
    (by decide)

/-- A record priced `0.00`, which is falsy in Python. -/
def c7zero : Product :=
  ⟨("Free Thing"), some ⟨0, 1⟩, ("Amazon"), ("u0"), 0, (""), ⟨0, 1⟩, 0, ("")⟩

/-- A record priced `5.00`. -/
def c7five : Product :=
  ⟨("Item Five"), some ⟨5, 1⟩, ("eBay"), ("u5"), 0, (""), ⟨0, 1⟩, 0, ("")⟩

/-- C7: evaluation at the failing input.  The sort key
`lambda x: x.price or float('inf')` maps a price of `0.0` to infinity because
`0.0` is falsy, so the zero-priced record sorts after the five-priced one and
the displayed price sequence `[5, 0]` is decreasing — the claimed
non-decreasing order fails even though both records passed the
known-price filter. -/
theorem c7_zero_price_sorts_last :
    c7zero.price = some ⟨0, 1⟩ ∧
      displayKey c7zero = none ∧
      display_sorted [c7zero, c7five] = [c7five, c7zero] ∧
      ¬ List.Chain' (fun a b : ℚ => a ≤ b)
        (((display_sorted [c7zero, c7five]).filterMap Product.price).map PyFloat.toRat) := by
  refine ⟨rfl, by decide, by decide, ?_⟩
  have h : (display_sorted [c7zero, c7five]).filterMap Product.price = [⟨5, 1⟩, ⟨0, 1⟩] := by
    decide
  rw [h]
  intro hc
  have h50 := List.chain'_cons.mp hc
  have : PyFloat.toRat ⟨5, 1⟩ ≤ PyFloat.toRat ⟨0, 1⟩ := h50.1
  norm_num [PyFloat.toRat] at this
